import Mathlib

/-!
Verification development for the pseudocode editor frontend.

The embedding covers:
* the API client `src/src/api/pseudocodeApi.ts` (`ExecuteResponse`,
  `ValidationError`, `ValidationWarning`, `ValidationResponse`,
  `executePseudocode`, `validatePseudocode`);
* the two `handleRun` click handlers of the App components
  (`src/unnamed/part_001` lines 592-639 and `src/unnamed/part_002`
  lines 80-125), as functions from the observed result of
  `await validatePseudocode(code)` to the list of terminal lines set by
  the final `setOutput` call, together with the list of API calls the
  handler body performs;
* a step-limited tree-walking interpreter modelled from the spec
  (the execution engine itself is not part of this repository's sources;
  only the frontend client is).

Network effects are made explicit: an async function that performs one
`fetch` and parses the body is embedded as a pure function of the source
text and of a `FetchOutcome`, the value describing how that
fetch-and-parse sequence inside the `try` block turned out.
-/

namespace PseudocodeFrontend

/-- The `ExecuteResponse` interface of `pseudocodeApi.ts` (lines 4-9):
`success : boolean`, `output?: string`, `error?: string`, `line?: number`. -/
structure ExecuteResponse where
  success : Bool
  output : Option String
  error : Option String
  line : Option Nat
  deriving Repr, DecidableEq

/-- The `ValidationError` interface of `pseudocodeApi.ts` (lines 11-15):
`lineNumber : number`, `message : string`, `code : string`. -/
structure ValidationError where
  lineNumber : Nat
  message : String
  code : String
  deriving Repr, DecidableEq

/-- The `ValidationWarning` interface of `pseudocodeApi.ts` (lines 17-21):
`lineNumber : number`, `message : string`, `code : string`. -/
structure ValidationWarning where
  lineNumber : Nat
  message : String
  code : String
  deriving Repr, DecidableEq

/-- The `ValidationResponse` interface of `pseudocodeApi.ts` (lines 23-27):
`isValid : boolean`, `errors : ValidationError[]`, `warnings : ValidationWarning[]`. -/
structure ValidationResponse where
  isValid : Bool
  errors : List ValidationError
  warnings : List ValidationWarning
  deriving Repr, DecidableEq

/-- A JavaScript value observed by a `catch (error)` block: either an
`Error` instance carrying a message (`error instanceof Error` is true), or
any other thrown value. -/
inductive JsThrown where
  | jsError (msg : String)
  | nonError
  deriving Repr, DecidableEq

/-- The message a `catch` block of `pseudocodeApi.ts` extracts from the
thrown value: `error instanceof Error ? error.message : 'Failed to connect
to backend'`. -/
def caughtMessage : JsThrown → String
  | .jsError msg => msg
  | .nonError => "Failed to connect to backend"

/-- How the fetch-and-parse sequence inside the `try` block of an API
function turned out: the response was ok and its JSON body parsed to
`body`; or the response arrived with `response.ok` false and the given
status; or somewhere in the sequence (the `fetch` itself, or
`response.json()`) a value was thrown. -/
inductive FetchOutcome (α : Type) where
  | ok (body : α)
  | httpNotOk (status : Nat)
  | thrown (t : JsThrown)

/-- `executePseudocode` of `pseudocodeApi.ts` (lines 32-54), as a function
of the source text and the fetch outcome. An ok response returns the
parsed body; a non-ok response throws `new Error('HTTP error! status: ' +
status)` which the `catch` turns into `{ success: false, error:
message }`; any other thrown value is caught the same way. The function
never rethrows: every branch returns an `ExecuteResponse` value. -/
def executePseudocode (code : String) : FetchOutcome ExecuteResponse → ExecuteResponse
  | .ok body => body
  | .httpNotOk status => ⟨false, none, some ("HTTP error! status: " ++ toString status), none⟩
  | .thrown t => ⟨false, none, some (caughtMessage t), none⟩

/-- `validatePseudocode` of `pseudocodeApi.ts` (lines 59-86), as a function
of the source text and the fetch outcome. An ok response returns the
parsed body; a non-ok response throws `new Error('HTTP error! status: ' +
status)`; every caught value becomes `{ isValid: false, errors:
[{ lineNumber: 0, message, code: 'CONNECTION_ERROR' }], warnings: [] }`.
The function never rethrows: every branch returns a `ValidationResponse`
value. -/
def validatePseudocode (code : String) : FetchOutcome ValidationResponse → ValidationResponse
  | .ok body => body
  | .httpNotOk status =>
      ⟨false, [⟨0, "HTTP error! status: " ++ toString status, "CONNECTION_ERROR"⟩], []⟩
  | .thrown t => ⟨false, [⟨0, caughtMessage t, "CONNECTION_ERROR"⟩], []⟩

/-- The field names declared by the `ExecuteResponse` interface
(`pseudocodeApi.ts` lines 4-9), in declaration order. -/
def executeResponseFields : List String := ["success", "output", "error", "line"]

/-- Modelled from the spec: the field names of the result shape the spec
assigns to Execute in Section 6, `Execute(sourceText, config) ->
{ success: bool, events: [{kind, text, line?}], executionTimeMs }`. -/
def specExecuteResultFields : List String := ["success", "events", "executionTimeMs"]

/-- The field names declared by the `ValidationResponse` interface
(`pseudocodeApi.ts` lines 23-27), in declaration order. -/
def validationResponseFields : List String := ["isValid", "errors", "warnings"]

/-- The field names declared by the `ValidationError` interface
(`pseudocodeApi.ts` lines 11-15), in declaration order. -/
def validationErrorFields : List String := ["lineNumber", "message", "code"]

/-- The field names declared by the `ValidationWarning` interface
(`pseudocodeApi.ts` lines 17-21), in declaration order. -/
def validationWarningFields : List String := ["lineNumber", "message", "code"]

/-- An API-client call a handler body can perform against
`pseudocodeApi.ts`: awaiting `validatePseudocode(code)` or awaiting
`executePseudocode(code)`. -/
inductive ApiCall where
  | validateCall (code : String)
  | executeCall (code : String)
  deriving Repr, DecidableEq

namespace AppV1

/-- The error line pushed by `handleRun` of `part_001` (line 604):
`Line ${error.lineNumber}: ${error.message}`. -/
def formatError (e : ValidationError) : String :=
  "Line " ++ toString e.lineNumber ++ ": " ++ e.message

/-- The warning line pushed by `handleRun` of `part_001` (lines 610, 623):
`Line ${warning.lineNumber}: ${warning.message}`. -/
def formatWarning (w : ValidationWarning) : String :=
  "Line " ++ toString w.lineNumber ++ ": " ++ w.message

/-- `handleRun` of `part_001` (lines 592-639), as a function from the
observed result of `await validatePseudocode(code)` (its resolved
`ValidationResponse`, or a thrown value landing in the `catch`) to the
terminal lines set by the final `setOutput` call of the handler. -/
def handleRun (result : Except JsThrown ValidationResponse) : List String :=
  match result with
  | .error err =>
      ["> Error:",
       match err with
       | .jsError msg => msg
       | .nonError => "Failed to validate code"]
  | .ok validationResult =>
      if !validationResult.isValid then
        (["> Validation Failed:", ""] ++ validationResult.errors.map formatError)
          ++ (if validationResult.warnings.length > 0 then
                ["", "> Warnings:"] ++ validationResult.warnings.map formatWarning
              else [])
      else if validationResult.warnings.length > 0 then
        ["> Validation passed with warnings:", ""] ++ validationResult.warnings.map formatWarning
      else
        ["> Validation passed", "> No errors found"]

/-- The API-client calls performed by the body of `handleRun` of
`part_001` (lines 592-639), in order: the body awaits
`validatePseudocode(code)` exactly once (line 598) and contains no other
API call in any branch; in particular `executePseudocode` is never
invoked. -/
def handleRunApiCalls (code : String) (_result : Except JsThrown ValidationResponse) :
    List ApiCall :=
  [.validateCall code]

end AppV1

namespace AppV2

/-- The error line pushed by `handleRun` of `part_002` (line 92):
`Line ${error.lineNumber}: ${error.message}`. -/
def formatError (e : ValidationError) : String :=
  "Line " ++ toString e.lineNumber ++ ": " ++ e.message

/-- The warning line pushed by `handleRun` of `part_002` (lines 98, 111):
`Line ${warning.lineNumber}: ${warning.message}`. -/
def formatWarning (w : ValidationWarning) : String :=
  "Line " ++ toString w.lineNumber ++ ": " ++ w.message

/-- `handleRun` of `part_002` (lines 80-125), as a function from the
observed result of `await validatePseudocode(code)` to the terminal lines
set by the final `setOutput` call of the handler. -/
def handleRun (result : Except JsThrown ValidationResponse) : List String :=
  match result with
  | .error err =>
      ["> Error:",
       match err with
       | .jsError msg => msg
       | .nonError => "Failed to validate code"]
  | .ok validationResult =>
      if !validationResult.isValid then
        (["> Validation Failed:", ""] ++ validationResult.errors.map formatError)
          ++ (if validationResult.warnings.length > 0 then
                ["", "> Warnings:"] ++ validationResult.warnings.map formatWarning
              else [])
      else if validationResult.warnings.length > 0 then
        ["> Validation passed with warnings:", ""] ++ validationResult.warnings.map formatWarning
      else
        ["> Validation passed", "> No errors found"]

/-- The API-client calls performed by the body of `handleRun` of
`part_002` (lines 80-125), in order: the body awaits
`validatePseudocode(code)` exactly once (line 86) and contains no other
API call in any branch; `executePseudocode`, although imported at
`part_002` line 3, is never invoked. -/
def handleRunApiCalls (code : String) (_result : Except JsThrown ValidationResponse) :
    List ApiCall :=
  [.validateCall code]

end AppV2

/-- A validation response with `isValid: true` and no diagnostics, as the
backend returns for a valid source text. -/
def validResponse : ValidationResponse := ⟨true, [], []⟩

/-- A sample failed validation response with two errors and one warning. -/
def invalidResponse : ValidationResponse :=
  ⟨false,
   [⟨3, "Syntax Error - Expected THEN after IF condition", "SYNTAX_ERROR"⟩,
    ⟨5, "Variable count used before declaration", "UNDECLARED_VARIABLE"⟩],
   [⟨7, "Unused variable total", "UNUSED_VARIABLE"⟩]⟩

namespace Engine

/-- Modelled from the spec: the kind of an `ExecutionEvent`
(`Output | Error | System`, spec Section 3). The execution engine itself
is not among this repository's source files; only its frontend client is,
so the engine is modelled from the spec. -/
inductive EventKind where
  | output
  | error
  | system
  deriving Repr, DecidableEq

/-- Modelled from the spec: `ExecutionEvent: { kind: Output|Error|System,
text, line? }` — one entry of the ordered trace returned by the
interpreter (spec Section 3). -/
structure ExecutionEvent where
  kind : EventKind
  text : String
  line : Option Nat
  deriving Repr, DecidableEq

/-- Modelled from the spec: a runtime `Value`, a tagged union (spec
Section 3). Real numbers are omitted from the model (floating point);
arrays are omitted because no claim mentions them. -/
inductive Value where
  | int (n : Int)
  | bool (b : Bool)
  | str (s : String)
  | null
  deriving Repr, DecidableEq

/-- Modelled from the spec: binary operators of the expression grammar
(spec Section 4.2); `and`/`or` are evaluated with short-circuiting
directly in `evalExpr` and never reach `applyBin`. -/
inductive BinOp where
  | add
  | sub
  | mul
  | div
  | mod
  | eq
  | lt
  deriving Repr, DecidableEq

/-- Modelled from the spec: expression AST nodes, each carrying its source
line number for diagnostics (spec Section 3). -/
inductive Expr where
  | lit (v : Value) (line : Nat)
  | var (name : String) (line : Nat)
  | binary (op : BinOp) (lhs rhs : Expr) (line : Nat)
  | andE (lhs rhs : Expr) (line : Nat)
  | orE (lhs rhs : Expr) (line : Nat)
  | notE (e : Expr) (line : Nat)

/-- Modelled from the spec: statement AST nodes, each carrying its source
line number (spec Section 3). The subset covers the constructs the
claims exercise: `OUTPUT`, assignment, `WHILE ... ENDWHILE`,
`IF ... ELSE ... ENDIF`. -/
inductive Stmt where
  | output (e : Expr) (line : Nat)
  | assign (name : String) (e : Expr) (line : Nat)
  | whileStmt (cond : Expr) (body : List Stmt) (line : Nat)
  | ifStmt (cond : Expr) (thenBody elseBody : List Stmt) (line : Nat)

/-- The source line carried by a statement node. -/
def stmtLine : Stmt → Nat
  | .output _ l => l
  | .assign _ _ l => l
  | .whileStmt _ _ l => l
  | .ifStmt _ _ _ l => l

/-- Modelled from the spec: the environment, a mapping from identifier to
value (spec Section 3); the model keeps one flat scope, enough for the
claims, which use no functions. -/
def setVar : List (String × Value) → String → Value → List (String × Value)
  | [], x, v => [(x, v)]
  | (y, w) :: rest, x, v =>
      if y = x then (y, v) :: rest else (y, w) :: setVar rest x v

/-- Coerce a value to a boolean condition; a non-boolean condition is the
runtime error `TYPE_MISMATCH` (spec Section 4.4). -/
def asBool : Value → Nat → Except (Nat × String) Bool
  | .bool b, _ => .ok b
  | _, ln => .error (ln, "Runtime Error - TYPE_MISMATCH")

/-- Modelled from the spec: apply a non-short-circuit binary operator
(spec Section 4.4): integer arithmetic, division or `MOD` by zero is the
runtime error `Division by zero`, comparison of like-typed operands,
anything else `TYPE_MISMATCH`. -/
def applyBin (op : BinOp) (va vb : Value) (ln : Nat) : Except (Nat × String) Value :=
  match op, va, vb with
  | .add, .int a, .int b => .ok (.int (a + b))
  | .sub, .int a, .int b => .ok (.int (a - b))
  | .mul, .int a, .int b => .ok (.int (a * b))
  | .div, .int a, .int b =>
      if b = 0 then .error (ln, "Runtime Error - Division by zero") else .ok (.int (a / b))
  | .mod, .int a, .int b =>
      if b = 0 then .error (ln, "Runtime Error - Division by zero") else .ok (.int (a % b))
  | .eq, .int a, .int b => .ok (.bool (decide (a = b)))
  | .eq, .bool a, .bool b => .ok (.bool (a == b))
  | .eq, .str a, .str b => .ok (.bool (a == b))
  | .lt, .int a, .int b => .ok (.bool (decide (a < b)))
  | _, _, _ => .error (ln, "Runtime Error - TYPE_MISMATCH")

/-- Modelled from the spec: eager left-to-right expression evaluation with
short-circuit `AND`/`OR` (spec Section 4.4); failures are diagnostic
values, never host-level exceptions. -/
def evalExpr (env : List (String × Value)) : Expr → Except (Nat × String) Value
  | .lit v _ => .ok v
  | .var x ln =>
      match List.lookup x env with
      | some v => .ok v
      | none => .error (ln, "Runtime Error - Variable " ++ x ++ " used before declaration")
  | .binary op a b ln => do
      let va ← evalExpr env a
      let vb ← evalExpr env b
      applyBin op va vb ln
  | .andE a b ln => do
      let va ← evalExpr env a
      let ba ← asBool va ln
      if ba then do
        let vb ← evalExpr env b
        let bb ← asBool vb ln
        pure (.bool bb)
      else
        pure (.bool false)
  | .orE a b ln => do
      let va ← evalExpr env a
      let ba ← asBool va ln
      if ba then
        pure (.bool true)
      else do
        let vb ← evalExpr env b
        let bb ← asBool vb ln
        pure (.bool bb)
  | .notE e ln => do
      let v ← evalExpr env e
      let b ← asBool v ln
      pure (.bool (!b))

/-- How an `OUTPUT` value is rendered into the trace. -/
def displayValue : Value → String
  | .int n => toString n
  | .bool true => "TRUE"
  | .bool false => "FALSE"
  | .str s => s
  | .null => "NULL"

/-- The interpreter state between two execution steps: the list of
statements still to execute (a `WHILE` re-enqueues itself behind its
body), the environment, and the trace collected so far in execution
order. -/
structure Machine where
  kont : List Stmt
  env : List (String × Value)
  events : List ExecutionEvent

/-- The result of one execution step: the program finished, or it
continues in a new state, or a runtime error halts it at a line with a
message. -/
inductive StepResult where
  | done (m : Machine)
  | next (m : Machine)
  | fault (line : Nat) (msg : String) (m : Machine)

/-- Modelled from the spec: one statement-execution step of the
tree-walking interpreter (spec Section 4.4), statement-by-statement,
left-to-right; a runtime fault is data, not a host exception. -/
def stepM (m : Machine) : StepResult :=
  match m.kont with
  | [] => .done m
  | s :: rest =>
      match s with
      | .output e ln =>
          match evalExpr m.env e with
          | .ok v => .next ⟨rest, m.env, m.events ++ [⟨.output, displayValue v, some ln⟩]⟩
          | .error p => .fault p.1 p.2 m
      | .assign x e _ =>
          match evalExpr m.env e with
          | .ok v => .next ⟨rest, setVar m.env x v, m.events⟩
          | .error p => .fault p.1 p.2 m
      | .whileStmt c body ln =>
          match evalExpr m.env c with
          | .ok (.bool true) => .next ⟨body ++ (Stmt.whileStmt c body ln :: rest), m.env, m.events⟩
          | .ok (.bool false) => .next ⟨rest, m.env, m.events⟩
          | .ok _ => .fault ln "Runtime Error - TYPE_MISMATCH" m
          | .error p => .fault p.1 p.2 m
      | .ifStmt c thenBody elseBody ln =>
          match evalExpr m.env c with
          | .ok (.bool true) => .next ⟨thenBody ++ rest, m.env, m.events⟩
          | .ok (.bool false) => .next ⟨elseBody ++ rest, m.env, m.events⟩
          | .ok _ => .fault ln "Runtime Error - TYPE_MISMATCH" m
          | .error p => .fault p.1 p.2 m

/-- Modelled from the spec: the event appended when the step counter is
exhausted, `Line <N>: Runtime Error - Execution timed out` (spec
Section 4.4, runtime limits). -/
def timeoutEvent (ln : Nat) : ExecutionEvent :=
  ⟨.error, "Line " ++ toString ln ++ ": Runtime Error - Execution timed out", some ln⟩

/-- Modelled from the spec: the result of `Execute` — a success flag plus
the ordered event trace (spec Sections 3 and 6; `executionTimeMs` is wall
clock time, a real-time quantity outside the model). -/
structure ExecutionTrace where
  success : Bool
  events : List ExecutionEvent
  deriving Repr, DecidableEq

/-- Modelled from the spec: the configuration bundle, reduced to the
execution step limit (spec Section 6); the wall-clock timeout and memory
limits are real-time and host concerns outside the model. -/
structure ExecConfig where
  stepLimit : Nat

/-- Modelled from the spec: run the machine for at most the given number
of statement-execution steps. Exhausting the counter with statements
still pending aborts with the timeout runtime error as the final event;
the first runtime fault halts the run and is reported as the final event
(spec Sections 4.4 and 7). Totality is structural in the step budget:
the run can never hang. -/
def run : Nat → Machine → ExecutionTrace
  | 0, m =>
      match m.kont with
      | [] => ⟨true, m.events⟩
      | s :: _ => ⟨false, m.events ++ [timeoutEvent (stmtLine s)]⟩
  | n + 1, m =>
      match stepM m with
      | .done m2 => ⟨true, m2.events⟩
      | .next m2 => run n m2
      | .fault ln msg m2 =>
          ⟨false, m2.events ++ [⟨.error, "Line " ++ toString ln ++ ": " ++ msg, some ln⟩]⟩

/-- Modelled from the spec: `execute(AST, config) -> ExecutionTrace`
(spec Section 4.4), starting from an empty environment and empty trace. -/
def execute (program : List Stmt) (config : ExecConfig) : ExecutionTrace :=
  run config.stepLimit ⟨program, [], []⟩

/-- The loop statement of the spec's infinite-loop example:
`WHILE TRUE` on line 1 with body `OUTPUT 1` on line 2. -/
def loopW : Stmt :=
  Stmt.whileStmt (.lit (.bool true) 1) [.output (.lit (.int 1) 2) 2] 1

/-- The body statement of the infinite-loop example: `OUTPUT 1`, line 2. -/
def loopOut : Stmt := Stmt.output (.lit (.int 1) 2) 2

/-- The spec's infinite-loop example program:
`WHILE TRUE \ OUTPUT 1 \ ENDWHILE`. -/
def whileTrueProgram : List Stmt := [loopW]

end Engine

/-- C2 counterexample: the claim that `executePseudocode` returns a value
of shape `{ success: bool, events: [{kind, text, line?}],
executionTimeMs }` is false on the code. The `ExecuteResponse` interface
the function returns declares the fields `success`, `output`, `error`,
`line`: it carries no `events` list and no `executionTimeMs` field, and a
concrete call returns exactly such a four-field record. -/
theorem executeResponse_lacks_spec_fields :
    executeResponseFields ≠ specExecuteResultFields
    ∧ "events" ∉ executeResponseFields
    ∧ "executionTimeMs" ∉ executeResponseFields
    ∧ executePseudocode "OUTPUT 1" (.httpNotOk 500)
        = ⟨false, none, some "HTTP error! status: 500", none⟩ := by
  refine ⟨by decide, by decide, by decide, rfl⟩

/-- C2 (amended): for every code string and transport outcome,
`executePseudocode` returns a value of shape `{ success: bool,
output?: string, error?: string, line?: number }` — a success flag with an
optional single output string, error message, and line number; the
interface declares exactly those four fields. -/
theorem executePseudocode_response_shape :
    executeResponseFields = ["success", "output", "error", "line"]
    ∧ ∀ (code : String) (outcome : FetchOutcome ExecuteResponse),
        ∃ (s : Bool) (o e : Option String) (l : Option Nat),
          executePseudocode code outcome = ⟨s, o, e, l⟩ := by
  refine ⟨rfl, fun code outcome => ?_⟩
  exact ⟨(executePseudocode code outcome).success, (executePseudocode code outcome).output,
    (executePseudocode code outcome).error, (executePseudocode code outcome).line, rfl⟩

/-- C4: for every source text and transport outcome, `validatePseudocode`
returns a value of shape `{ isValid: bool, errors: [{lineNumber, message,
code}], warnings: [...] }`: the interfaces declare exactly those fields,
the result decomposes into a flag and two diagnostic lists, and every
element of either list carries a line number, a message, and a code. -/
theorem validatePseudocode_response_shape :
    validationResponseFields = ["isValid", "errors", "warnings"]
    ∧ validationErrorFields = ["lineNumber", "message", "code"]
    ∧ validationWarningFields = ["lineNumber", "message", "code"]
    ∧ ∀ (code : String) (outcome : FetchOutcome ValidationResponse),
        ∃ (v : Bool) (es : List ValidationError) (ws : List ValidationWarning),
          validatePseudocode code outcome = ⟨v, es, ws⟩
          ∧ (∀ e ∈ es, e = ⟨e.lineNumber, e.message, e.code⟩)
          ∧ (∀ w ∈ ws, w = ⟨w.lineNumber, w.message, w.code⟩) := by
  refine ⟨rfl, rfl, rfl, fun code outcome => ?_⟩
  exact ⟨(validatePseudocode code outcome).isValid, (validatePseudocode code outcome).errors,
    (validatePseudocode code outcome).warnings, rfl, fun e _ => rfl, fun w _ => rfl⟩

/-- C6: `validatePseudocode` never rethrows at the caller boundary — in
the embedding it is a total function into `ValidationResponse`, every
failure branch returning diagnostics as values. A thrown transport
failure yields `isValid: false` with exactly the one error
`{ lineNumber: 0, message: caught message, code: 'CONNECTION_ERROR' }`
and an empty warnings list; a non-ok HTTP status is caught the same way
with the message `HTTP error! status: <status>`. -/
theorem validatePseudocode_failures_are_values :
    (∀ (code : String) (t : JsThrown),
        validatePseudocode code (.thrown t)
          = ⟨false, [⟨0, caughtMessage t, "CONNECTION_ERROR"⟩], []⟩)
    ∧ (∀ (code : String) (status : Nat),
        validatePseudocode code (.httpNotOk status)
          = ⟨false, [⟨0, "HTTP error! status: " ++ toString status, "CONNECTION_ERROR"⟩], []⟩) :=
  ⟨fun _ _ => rfl, fun _ _ => rfl⟩

/-- C9: `executePseudocode` never rejects — in the embedding it is a total
function into `ExecuteResponse`. A non-ok HTTP status resolves to
`{ success: false, error: 'HTTP error! status: <status>' }` and any value
thrown by the fetch or by body parsing resolves to `{ success: false,
error: caught message }`, with the `output` and `line` fields unset in
both cases. -/
theorem executePseudocode_failures_resolve :
    (∀ (code : String) (status : Nat),
        executePseudocode code (.httpNotOk status)
          = ⟨false, none, some ("HTTP error! status: " ++ toString status), none⟩)
    ∧ (∀ (code : String) (t : JsThrown),
        executePseudocode code (.thrown t) = ⟨false, none, some (caughtMessage t), none⟩) :=
  ⟨fun _ _ => rfl, fun _ _ => rfl⟩

/-- C7 counterexample: the claim that calling Validate twice on identical
input (the source text) yields identical results is false on the code:
the result of `validatePseudocode` also depends on the transport outcome
of its fetch, so two calls on the same source text can disagree when the
transport behaves differently. -/
theorem validatePseudocode_not_determined_by_source :
    validatePseudocode "OUTPUT 1" (.ok ⟨true, [], []⟩)
      ≠ validatePseudocode "OUTPUT 1" (.thrown .nonError) := by
  decide

/-- C7 (amended): `validatePseudocode` is a pure function of the source
text and the transport outcome: two calls agreeing on both yield
identical results, with no dependence on any other state. -/
theorem validatePseudocode_deterministic (code₁ code₂ : String)
    (o₁ o₂ : FetchOutcome ValidationResponse) (hc : code₁ = code₂) (ho : o₁ = o₂) :
    validatePseudocode code₁ o₁ = validatePseudocode code₂ o₂ := by
  subst hc
  subst ho
  rfl

/-- Witness for C7 (amended) at a concrete source text and outcome. -/
theorem validatePseudocode_deterministic_witness :
    validatePseudocode "OUTPUT 1" (.ok ⟨true, [], []⟩)
      = validatePseudocode "OUTPUT 1" (.ok ⟨true, [], []⟩) :=
  validatePseudocode_deterministic "OUTPUT 1" "OUTPUT 1"
    (.ok ⟨true, [], []⟩) (.ok ⟨true, [], []⟩) rfl rfl

/-- C10: the two `handleRun` variants are observationally equivalent with
respect to terminal output: for every observed validation result
(resolved response or thrown value), `handleRun` of `part_001` and
`handleRun` of `part_002` set the identical ordered list of terminal
lines. -/
theorem handleRun_variants_agree (result : Except JsThrown ValidationResponse) :
    AppV1.handleRun result = AppV2.handleRun result := by
  cases result with
  | error t => cases t <;> rfl
  | ok v => rfl

/-- C1: on a validation response with `isValid: true`, both `handleRun`
variants display only the validation verdict and never invoke
`executePseudocode`: the Run flow stops after a successful Validate
instead of executing the program, contradicting the repository's own
design document (`part_000` lines 86-102, "If valid: Execute AST ...
Display results in terminal"). -/
theorem valid_run_never_executes :
    AppV1.handleRun (.ok validResponse) = ["> Validation passed", "> No errors found"]
    ∧ AppV2.handleRun (.ok validResponse) = ["> Validation passed", "> No errors found"]
    ∧ ApiCall.executeCall "OUTPUT 1" ∉ AppV1.handleRunApiCalls "OUTPUT 1" (.ok validResponse)
    ∧ ApiCall.executeCall "OUTPUT 1" ∉ AppV2.handleRunApiCalls "OUTPUT 1" (.ok validResponse) := by
  refine ⟨rfl, rfl, ?_, ?_⟩
  · intro hmem
    simp [AppV1.handleRunApiCalls] at hmem
  · intro hmem
    simp [AppV2.handleRunApiCalls] at hmem

/-- C3: for every source text and validation response with
`isValid: false`, neither `handleRun` variant ever invokes
`executePseudocode`: the only API call either body performs is the single
`validatePseudocode` await, so validation failure prevents execution
entirely. -/
theorem run_flow_skips_execute_on_invalid (code : String) (v : ValidationResponse)
    (h : v.isValid = false) :
    ApiCall.executeCall code ∉ AppV1.handleRunApiCalls code (.ok v)
    ∧ ApiCall.executeCall code ∉ AppV2.handleRunApiCalls code (.ok v) := by
  constructor
  · intro hmem
    simp [AppV1.handleRunApiCalls] at hmem
  · intro hmem
    simp [AppV2.handleRunApiCalls] at hmem

/-- Witness for C3 at a concrete source text and failed validation. -/
theorem run_flow_skips_execute_on_invalid_witness :
    invalidResponse.isValid = false
    ∧ (ApiCall.executeCall "OUTPUT x" ∉ AppV1.handleRunApiCalls "OUTPUT x" (.ok invalidResponse)
      ∧ ApiCall.executeCall "OUTPUT x" ∉ AppV2.handleRunApiCalls "OUTPUT x" (.ok invalidResponse)) :=
  ⟨rfl, run_flow_skips_execute_on_invalid "OUTPUT x" invalidResponse rfl⟩

/-- C5: on every validation response with `isValid: false`, both
`handleRun` variants display the complete diagnostic report: after the
header, all errors in list order, then (when present, after a separator)
all warnings in list order, each formatted `Line <N>: <message>`; every
error and warning of the response appears in the terminal output and
reporting is never cut short after the first error. -/
theorem handleRun_enumerates_all_diagnostics (v : ValidationResponse)
    (h : v.isValid = false) :
    AppV1.handleRun (.ok v)
      = (["> Validation Failed:", ""] ++ v.errors.map AppV1.formatError)
          ++ (if v.warnings.length > 0 then
                ["", "> Warnings:"] ++ v.warnings.map AppV1.formatWarning
              else [])
    ∧ AppV2.handleRun (.ok v)
      = (["> Validation Failed:", ""] ++ v.errors.map AppV2.formatError)
          ++ (if v.warnings.length > 0 then
                ["", "> Warnings:"] ++ v.warnings.map AppV2.formatWarning
              else [])
    ∧ (∀ e ∈ v.errors,
        ("Line " ++ toString e.lineNumber ++ ": " ++ e.message) ∈ AppV1.handleRun (.ok v))
    ∧ (∀ w ∈ v.warnings,
        ("Line " ++ toString w.lineNumber ++ ": " ++ w.message) ∈ AppV1.handleRun (.ok v)) := by
  have e1 : AppV1.handleRun (.ok v)
      = (["> Validation Failed:", ""] ++ v.errors.map AppV1.formatError)
          ++ (if v.warnings.length > 0 then
                ["", "> Warnings:"] ++ v.warnings.map AppV1.formatWarning
              else []) := by
    simp [AppV1.handleRun, h]
  have e2 : AppV2.handleRun (.ok v)
      = (["> Validation Failed:", ""] ++ v.errors.map AppV2.formatError)
          ++ (if v.warnings.length > 0 then
                ["", "> Warnings:"] ++ v.warnings.map AppV2.formatWarning
              else []) := by
    simp [AppV2.handleRun, h]
  refine ⟨e1, e2, ?_, ?_⟩
  · intro e he
    rw [e1]
    have hm : AppV1.formatError e ∈ v.errors.map AppV1.formatError :=
      List.mem_map_of_mem _ he
    exact List.mem_append_left _ (List.mem_append_right _ hm)
  · intro w hw
    rw [e1]
    by_cases hc : v.warnings.length > 0
    · rw [if_pos hc]
      have hm : AppV1.formatWarning w ∈ v.warnings.map AppV1.formatWarning :=
        List.mem_map_of_mem _ hw
      exact List.mem_append_right _ (List.mem_append_right _ hm)
    · have hnil : v.warnings = [] := by
        simp only [gt_iff_lt, Nat.pos_iff_ne_zero, ne_eq, not_not] at hc
        exact List.length_eq_zero.mp hc
      rw [hnil] at hw
      cases hw

/-- Witness for C5: the sample failed validation response with two errors
and one warning produces the full concrete report, all diagnostics
enumerated in order. -/
theorem handleRun_enumerates_all_diagnostics_witness :
    invalidResponse.isValid = false
    ∧ AppV1.handleRun (.ok invalidResponse)
        = ["> Validation Failed:", "",
           "Line 3: Syntax Error - Expected THEN after IF condition",
           "Line 5: Variable count used before declaration",
           "", "> Warnings:",
           "Line 7: Unused variable total"] :=
  ⟨rfl, ((handleRun_enumerates_all_diagnostics invalidResponse rfl).1).trans (by decide)⟩

/-- Every run of the machine whose pending statements are exactly the
`WHILE TRUE` loop (or its unrolling, the `OUTPUT 1` body followed by the
loop) ends unsuccessfully with the timeout event as the final trace
entry, and appends at most `n + 1` events to the trace in `n` steps. -/
theorem loop_run_times_out (n : Nat) :
    ∀ (env : List (String × Engine.Value)) (evs : List Engine.ExecutionEvent),
      ((Engine.run n ⟨[Engine.loopW], env, evs⟩).success = false
        ∧ (∃ N, (Engine.run n ⟨[Engine.loopW], env, evs⟩).events.getLast?
              = some (Engine.timeoutEvent N))
        ∧ (Engine.run n ⟨[Engine.loopW], env, evs⟩).events.length ≤ evs.length + n + 1)
      ∧ ((Engine.run n ⟨[Engine.loopOut, Engine.loopW], env, evs⟩).success = false
        ∧ (∃ N, (Engine.run n ⟨[Engine.loopOut, Engine.loopW], env, evs⟩).events.getLast?
              = some (Engine.timeoutEvent N))
        ∧ (Engine.run n ⟨[Engine.loopOut, Engine.loopW], env, evs⟩).events.length
            ≤ evs.length + n + 1) := by
  induction n with
  | zero =>
      intro env evs
      constructor
      · refine ⟨rfl, ⟨1, ?_⟩, ?_⟩
        · show (evs ++ [Engine.timeoutEvent 1]).getLast? = some (Engine.timeoutEvent 1)
          exact List.getLast?_concat _
        · show (evs ++ [Engine.timeoutEvent 1]).length ≤ evs.length + 0 + 1
          simp
      · refine ⟨rfl, ⟨2, ?_⟩, ?_⟩
        · show (evs ++ [Engine.timeoutEvent 2]).getLast? = some (Engine.timeoutEvent 2)
          exact List.getLast?_concat _
        · show (evs ++ [Engine.timeoutEvent 2]).length ≤ evs.length + 0 + 1
          simp
  | succ n ih =>
      intro env evs
      constructor
      · have hstep : Engine.run (n + 1) ⟨[Engine.loopW], env, evs⟩
            = Engine.run n ⟨[Engine.loopOut, Engine.loopW], env, evs⟩ := rfl
        rw [hstep]
        obtain ⟨hs, hl, hlen⟩ := (ih env evs).2
        exact ⟨hs, hl, hlen.trans (by omega)⟩
      · have hstep : Engine.run (n + 1) ⟨[Engine.loopOut, Engine.loopW], env, evs⟩
            = Engine.run n ⟨[Engine.loopW], env,
                evs ++ [⟨Engine.EventKind.output, Engine.displayValue (.int 1), some 2⟩]⟩ := rfl
        rw [hstep]
        obtain ⟨hs, hl, hlen⟩ :=
          (ih env (evs ++ [⟨Engine.EventKind.output, Engine.displayValue (.int 1), some 2⟩])).1
        refine ⟨hs, hl, hlen.trans ?_⟩
        simp
        omega

/-- C8: for every configured step limit, executing the spec's unbounded
loop `WHILE TRUE \ OUTPUT 1 \ ENDWHILE` halts once the limit is
exhausted: the trace is unsuccessful, its final event is the timeout
runtime error `Line <N>: Runtime Error - Execution timed out`, and the
trace length is bounded by the step limit plus the one timeout event, so
the run never hangs. -/
theorem stepLimit_halts_while_true (stepLimit : Nat) :
    (Engine.execute Engine.whileTrueProgram ⟨stepLimit⟩).success = false
    ∧ (∃ N, (Engine.execute Engine.whileTrueProgram ⟨stepLimit⟩).events.getLast?
          = some (Engine.timeoutEvent N))
    ∧ (Engine.execute Engine.whileTrueProgram ⟨stepLimit⟩).events.length ≤ stepLimit + 1 := by
  obtain ⟨hs, hl, hlen⟩ := (loop_run_times_out stepLimit [] []).1
  exact ⟨hs, hl, by simpa using hlen⟩

end PseudocodeFrontend
